import Mathlib

/-!
Verification of the waxradio-app core against its specification.

The definitions below are a shallow embedding of the TypeScript source:

* `calculateHeatScore`, `getPlaceholderTracks`, `fetchTracks`, `voteTrack`
  embed the engagement engine of `hooks/useMusic.ts`;
* the auth/lifecycle definitions embed the `AuthProvider` of
  `hooks/useAuth.tsx` (the profile fetch retry loop, minimal-profile
  creation, `updateUserProfile`) and the screen routing of `app/page.tsx`;
* the playback definitions embed `hooks/useAudioPlayer.ts`
  (the preview/vote/full-track state machine with its 30-second timers).

JavaScript numbers are modelled as `Nat`/`Int`/`Rat` (`Math.round` on a
non-negative value is `round` on `Rat`), `Date` values as `Nat` instants,
fallible asynchronous calls as `Except`/`Bool` outcome parameters, and the
JS truthiness tests of the source are spelled out field by field.
-/

/-! ## Engagement engine: data model (`hooks/useMusic.ts`) -/

/-- A track document, `MusicTrack` of `useMusic.ts`.  `createdAt` and
`updatedAt` are `Date` values modelled as `Nat` instants. -/
structure MusicTrack where
  id : String
  title : String
  artist : String
  artistId : String
  genre : String
  coverArt : String
  audioUrl : String
  previewUrl : String
  duration : Nat
  heatScore : Int
  upvotes : Nat
  downvotes : Nat
  createdAt : Nat
  updatedAt : Nat
deriving DecidableEq, Repr

/-- Direction of a vote (`'up' | 'down'`). -/
inductive VoteType where
  | up
  | down
deriving DecidableEq, Repr

/-- Heat score of a track, from `calculateHeatScore` in `useMusic.ts`:
`totalVotes == 0` gives the base temperature 30, otherwise
`Math.round(30 + (upvotes / totalVotes) * 80)`. -/
def calculateHeatScore (upvotes downvotes : Nat) : Int :=
  let totalVotes := upvotes + downvotes
  if totalVotes = 0 then 30
  else
    let ratio : ℚ := (upvotes : ℚ) / (totalVotes : ℚ)
    round ((30 : ℚ) + ratio * 80)

/-- The three sample placeholder tracks returned by `getPlaceholderTracks`
in `useMusic.ts`; `now` stands for the `new Date()` timestamps. -/
def getPlaceholderTracks (now : Nat) : List MusicTrack :=
  [ { id := "placeholder-1", title := "Your Song Here", artist := "Unknown Artist",
      artistId := "placeholder", genre := "Hip Hop", coverArt := "", audioUrl := "",
      previewUrl := "", duration := 180, heatScore := 30, upvotes := 0, downvotes := 0,
      createdAt := now, updatedAt := now },
    { id := "placeholder-2", title := "Your Song Here", artist := "Unknown Artist",
      artistId := "placeholder", genre := "R&B", coverArt := "", audioUrl := "",
      previewUrl := "", duration := 210, heatScore := 30, upvotes := 0, downvotes := 0,
      createdAt := now, updatedAt := now },
    { id := "placeholder-3", title := "Your Song Here", artist := "Unknown Artist",
      artistId := "placeholder", genre := "Pop", coverArt := "", audioUrl := "",
      previewUrl := "", duration := 195, heatScore := 30, upvotes := 0, downvotes := 0,
      createdAt := now, updatedAt := now } ]

/-- Outcome of `fetchTracks` in `useMusic.ts` on the in-memory track list.
`fetchRes` is the result of the Firestore query (`.error` when `getDocs`
throws, `.ok` with the parsed documents otherwise): an empty result or a
thrown error both install the placeholder tracks, a non-empty result is
installed as-is. -/
def fetchTracks (fetchRes : Except String (List MusicTrack)) (now : Nat) :
    List MusicTrack :=
  match fetchRes with
  | .error _ => getPlaceholderTracks now
  | .ok tracksData =>
      if tracksData.length = 0 then getPlaceholderTracks now else tracksData

/-! ## Lifecycle controller: data model (`hooks/useAuth.tsx`) -/

/-- User role, `UserType` of `useAuth.tsx`. -/
inductive UserType where
  | artist
  | fan
deriving DecidableEq, Repr

/-- The authenticated principal handed over by Firebase auth
(`FirebaseUser`); optional fields model `null`/`undefined`. -/
structure Principal where
  uid : String
  email : Option String
  displayName : Option String
deriving DecidableEq, Repr

/-- A raw `users/{uid}` Firestore document as read by the fetch
(`userDoc.data()`); `Option` fields model absent document fields. -/
structure ProfileDoc where
  displayName : String
  userType : UserType
  bio : Option String
  profileImageUrl : Option String
  profileSetupComplete : Option Bool
  createdAt : Nat
  updatedAt : Nat
deriving DecidableEq, Repr

/-- The in-memory `UserProfile` of `useAuth.tsx`.  The
`profileSetupComplete` field is optional in the interface and is absent on
profiles built by the fetch path, hence `Option Bool`. -/
structure UserProfile where
  uid : String
  email : String
  displayName : String
  userType : UserType
  bio : String
  profileImageUrl : String
  profileSetupComplete : Option Bool
  createdAt : Nat
  updatedAt : Nat
deriving DecidableEq, Repr

/-- A thrown Firestore error, with its vendor `code` string and message. -/
structure FetchError where
  code : String
  message : String
deriving DecidableEq, Repr

/-- The `AuthProvider` state: the `useState` cells `user`, `userProfile`,
`profileSetupComplete`, `loading` and `error`. -/
structure AuthState where
  user : Option Principal
  userProfile : Option UserProfile
  profileSetupComplete : Bool
  loading : Bool
  error : Option String
deriving DecidableEq, Repr

/-- The provider's initial state: no user, no profile, `loading = true`. -/
def initialAuthState : AuthState :=
  { user := none, userProfile := none, profileSetupComplete := false,
    loading := true, error := none }

/-- JS `String.prototype.trim`: strip leading and trailing whitespace
(modelled over the character list so that it is kernel-executable). -/
def jsTrim (s : String) : String :=
  ⟨((s.data.dropWhile Char.isWhitespace).reverse.dropWhile Char.isWhitespace).reverse⟩

/-- JS truthiness of `data.bio && data.bio.trim()`: the bio field is
present, non-empty, and non-blank after trimming. -/
def bioTruthy (bio : Option String) : Bool :=
  match bio with
  | none => false
  | some b => !(b == "") && !(jsTrim b == "")

/-- `useAuth.tsx` line 103: a fetched profile counts as set up when
`!!(data.bio && data.bio.trim()) || !!data.profileSetupComplete`. -/
def isProfileComplete (data : ProfileDoc) : Bool :=
  bioTruthy data.bio || data.profileSetupComplete.getD false

/-- The completeness default claimed by the specification's migration rule:
`setupComplete` defaults to true iff `role == fan` or the bio is non-empty.
Stated from the spec's words for comparison against `isProfileComplete`
(the rule also appears verbatim in the superseded duplicated variant of the
hook kept in the repository). -/
def claimedSetupDefault (data : ProfileDoc) : Bool :=
  (data.userType == UserType.fan) || bioTruthy data.bio

/-- `str.includes(pat)` of JS for a non-empty pattern. -/
def strIncludes (s pat : String) : Bool :=
  (s.splitOn pat).length != 1

/-- The error classification of `useAuth.tsx` lines 168-174, applied when
the retry budget is exhausted. -/
def classifyError (e : FetchError) : String :=
  if e.code == "unavailable" || strIncludes e.message "offline" then
    "Connection to database failed. Please check your internet connection and try again."
  else if e.code == "permission-denied" then
    "Permission denied: Unable to access user profile. Check Firestore rules."
  else if !(e.message == "") then e.message
  else "Failed to load user profile. Please try again."

/-- JS `a || b` on an optional string (empty string is falsy). -/
def jsOrStr (a : Option String) (b : String) : String :=
  match a with
  | some s => if s == "" then b else s
  | none => b

/-- Display-name fallback of the minimal profile:
`user.displayName || user.email?.split('@')[0] || 'User'`. -/
def displayNameDefault (u : Principal) : String :=
  jsOrStr u.displayName
    (jsOrStr (u.email.map (fun e => ((e.splitOn "@").headD ""))) "User")

/-- The in-memory `UserProfile` built from a fetched document
(`useAuth.tsx` lines 92-101). -/
def profileFromDoc (u : Principal) (data : ProfileDoc) : UserProfile :=
  { uid := u.uid, email := u.email.getD "", displayName := data.displayName,
    userType := data.userType, bio := data.bio.getD "",
    profileImageUrl := data.profileImageUrl.getD "",
    profileSetupComplete := none,
    createdAt := data.createdAt, updatedAt := data.updatedAt }

/-- The minimal profile created when the document is absent
(`useAuth.tsx` lines 110-127): role defaults to `fan`, empty bio, `now`
timestamps. -/
def minimalUserProfile (u : Principal) (now : Nat) : UserProfile :=
  { uid := u.uid, email := u.email.getD "",
    displayName := displayNameDefault u, userType := UserType.fan,
    bio := "", profileImageUrl := "", profileSetupComplete := none,
    createdAt := now, updatedAt := now }

/-- `maxRetries` of the profile-fetch retry loop. -/
def maxRetries : Nat := 3

/-- Result of one run of the auth callback: the resulting provider state,
the number of fetch attempts performed, and the backoff waits (in ms)
slept between attempts. -/
structure CallbackResult where
  state : AuthState
  attempts : Nat
  delays : List Nat
deriving DecidableEq, Repr

/-- The `while (retryCount < maxRetries)` fetch loop of `useAuth.tsx`
lines 81-180.  `fetch n` is the outcome of `getDoc` on attempt `n`
(0-indexed), `createOk` whether `setDoc` of the minimal profile succeeds.
The fuel argument equals `maxRetries - retryCount` at every call, so the
`0` case is never reached from `runAuthCallback`. -/
def fetchLoop (u : Principal) (fetch : Nat → Except FetchError (Option ProfileDoc))
    (createOk : Bool) (now : Nat) (st : AuthState) :
    Nat → Nat → List Nat → CallbackResult
  | 0, retryCount, delays => ⟨st, retryCount, delays⟩
  | _fuel + 1, retryCount, delays =>
    match fetch retryCount with
    | .ok (some data) =>
        ⟨{ st with userProfile := some (profileFromDoc u data),
                   profileSetupComplete := isProfileComplete data },
          retryCount + 1, delays⟩
    | .ok none =>
        if createOk then
          ⟨{ st with userProfile := some (minimalUserProfile u now),
                     profileSetupComplete := false },
            retryCount + 1, delays⟩
        else
          ⟨{ st with error := some "Failed to create user profile. Please try again." },
            retryCount + 1, delays⟩
    | .error e =>
        let rc := retryCount + 1
        if maxRetries ≤ rc then
          ⟨{ st with userProfile := none, profileSetupComplete := false,
                     error := some (classifyError e) },
            rc, delays⟩
        else
          fetchLoop u fetch createOk now st _fuel rc (delays ++ [1000 * rc])

/-- One invocation of the `onAuthStateChanged` callback of `useAuth.tsx`:
set `user`, clear `error`, then either run the fetch/retry loop (principal
present) or clear the cached profile (principal null); `loading` is set to
false at the end in both cases. -/
def runAuthCallback (st : AuthState) (p : Option Principal)
    (fetch : Nat → Except FetchError (Option ProfileDoc))
    (createOk : Bool) (now : Nat) : CallbackResult :=
  let st1 : AuthState := { st with user := p, error := none }
  match p with
  | some u =>
      let r := fetchLoop u fetch createOk now st1 maxRetries 0 []
      ⟨{ r.state with loading := false }, r.attempts, r.delays⟩
  | none =>
      ⟨{ st1 with userProfile := none, profileSetupComplete := false,
                  loading := false }, 0, []⟩

/-! ## Lifecycle state derived by the screen routing (`app/page.tsx`) -/

/-- The spec's derived `LifecycleState`, one value per screen. -/
inductive LifecycleState where
  | Loading
  | AuthError
  | Unauthenticated
  | ProfileLoading
  | ProfileSetupRequired
  | OnboardingRequired
  | Ready
deriving DecidableEq, Repr

/-- The screen routing of `app/page.tsx` (the chain of early returns in
`WaxRadioApp`): loading screen, error screen, auth forms, profile-loading
spinner, artist profile setup, fan dashboard, artist onboarding/dashboard. -/
def lifecycleState (st : AuthState)
    (onboardingLoading loadingTimeout showOnboarding : Bool) : LifecycleState :=
  if (st.loading || onboardingLoading) && !loadingTimeout then .Loading
  else if st.error.isSome then .AuthError
  else if st.user.isNone || loadingTimeout then .Unauthenticated
  else
    match st.userProfile with
    | none => .ProfileLoading
    | some p =>
        if p.userType == UserType.artist && !st.profileSetupComplete then
          .ProfileSetupRequired
        else if p.userType == UserType.fan then .Ready
        else if showOnboarding && st.profileSetupComplete then .OnboardingRequired
        else .Ready

/-! ## `updateUserProfile` (`hooks/useAuth.tsx` lines 259-291) -/

/-- A partial update object (`Partial<UserProfile>`); `some` marks a field
present on the object (`hasOwnProperty`). -/
structure ProfileUpdates where
  displayName : Option String := none
  userType : Option UserType := none
  bio : Option String := none
  profileImageUrl : Option String := none
  profileSetupComplete : Option Bool := none
deriving DecidableEq, Repr

/-- The object spread `{ ...userProfile, ...updates, updatedAt: new Date() }`. -/
def applyUpdates (p : UserProfile) (upd : ProfileUpdates) (now : Nat) : UserProfile :=
  { p with
    displayName := upd.displayName.getD p.displayName,
    userType := upd.userType.getD p.userType,
    bio := upd.bio.getD p.bio,
    profileImageUrl := upd.profileImageUrl.getD p.profileImageUrl,
    profileSetupComplete :=
      match upd.profileSetupComplete with
      | some b => some b
      | none => p.profileSetupComplete,
    updatedAt := now }

/-- `updateUserProfile` of `useAuth.tsx`: throws without a user; on a
successful `updateDoc` (`writeOk`) mirrors the updates into the local
profile, sets the completion flag when a non-blank bio is supplied
(`if (updates.bio && updates.bio.trim())`), then overwrites it with the
explicit boolean when the update object carries `profileSetupComplete`
(`setProfileSetupComplete(!!updates.profileSetupComplete)`). -/
def updateUserProfile (st : AuthState) (upd : ProfileUpdates)
    (writeOk : Bool) (now : Nat) : AuthState × Except String Unit :=
  match st.user with
  | none => (st, .error "No user logged in")
  | some _ =>
      if writeOk then
        let st1 : AuthState :=
          match st.userProfile with
          | some p => { st with userProfile := some (applyUpdates p upd now) }
          | none => st
        let st2 : AuthState :=
          match upd.bio with
          | some b =>
              if !(b == "") && !(jsTrim b == "") then
                { st1 with profileSetupComplete := true }
              else st1
          | none => st1
        let st3 : AuthState :=
          match upd.profileSetupComplete with
          | some b => { st2 with profileSetupComplete := b }
          | none => st2
        (st3, .ok ())
      else (st, .error "updateDoc failed")

/-! ## `voteTrack` (`hooks/useMusic.ts` lines 218-263)

The combined client state: the lifecycle provider's state and the music
hook's in-memory track list.  `voteTrack` reads `user` from the auth
provider and mutates only `tracks`; the local `setTracks` mirror runs
strictly after the awaited `updateDoc`, so a failed write leaves the list
untouched and the error is re-thrown. -/

structure AppState where
  auth : AuthState
  tracks : List MusicTrack
deriving DecidableEq, Repr

/-- `voteTrack(trackId, voteType)`.  `writeRes` is the outcome of the
awaited `updateDoc` (`.error e` models a throw, which the catch block
re-throws). -/
def voteTrack (st : AppState) (trackId : String) (voteType : VoteType)
    (writeRes : Except String Unit) (now : Nat) : AppState × Except String Int :=
  if st.auth.user.isNone then (st, .error "User must be logged in")
  else
    match st.tracks.find? (fun t => t.id == trackId) with
    | none => (st, .error "Track not found")
    | some track =>
        let newUpvotes := track.upvotes + (if voteType = VoteType.up then 1 else 0)
        let newDownvotes := track.downvotes + (if voteType = VoteType.down then 1 else 0)
        let newHeatScore := calculateHeatScore newUpvotes newDownvotes
        match writeRes with
        | .error e => (st, .error e)
        | .ok _ =>
            ({ st with tracks := st.tracks.map (fun t =>
                if t.id == trackId then
                  { t with upvotes := newUpvotes, downvotes := newDownvotes,
                           heatScore := newHeatScore, updatedAt := now }
                else t) },
              .ok newHeatScore)

/-! ## Playback engine (`hooks/useAudioPlayer.ts`)

The player is modelled as an event-driven machine.  Scheduled 30-second
preview timeouts are tracked by id in `pendingTimers` (scheduled, not yet
fired, not yet cancelled); `previewTimeoutRef` holds the handle last stored
in the hook's ref, which is the only handle `clearTimeout` is ever applied
to.  `advanceCount` counts executions of `skipToNext` (the advance
signal). -/

/-- `Track` of `useAudioPlayer.ts`. -/
structure Track where
  id : String
  title : String
  artist : String
  album : String
  heatScore : Int
  previewUrl : String
  fullUrl : String
  artwork : String
  duration : Nat
deriving DecidableEq, Repr

/-- `AudioPlayerState` of `useAudioPlayer.ts` (volume is held abstract as a
natural number; it is only ever written through `setVolume`, which no
claim touches). -/
structure PlayerState where
  isPlaying : Bool
  isLoading : Bool
  currentTime : Nat
  duration : Nat
  volume : Nat
  isPreview : Bool
  hasVoted : Bool
  error : Option String
deriving DecidableEq, Repr

structure PlayerModel where
  st : PlayerState
  currentTrack : Option Track
  pendingTimers : List Nat
  previewTimeoutRef : Option Nat
  nextTimerId : Nat
  advanceCount : Nat
deriving DecidableEq, Repr

/-- The hook's initial state. -/
def initPlayer : PlayerModel :=
  { st := { isPlaying := false, isLoading := false, currentTime := 0,
            duration := 0, volume := 1, isPreview := true, hasVoted := false,
            error := none },
    currentTrack := none, pendingTimers := [], previewTimeoutRef := none,
    nextTimerId := 0, advanceCount := 0 }

/-- `if (previewTimeoutRef.current) clearTimeout(previewTimeoutRef.current)`:
cancels the scheduled timeout whose handle is held in the ref (a no-op on
an already fired or cancelled handle). -/
def clearPreviewTimeout (m : PlayerModel) : PlayerModel :=
  match m.previewTimeoutRef with
  | some i => { m with pendingTimers := m.pendingTimers.erase i }
  | none => m

/-- `skipToNext`: pause the audio element, rewind, reset the session flags
and drop the current track.  The advance signal is its execution,
counted in `advanceCount`. -/
def skipToNextM (m : PlayerModel) : PlayerModel :=
  { m with
    st := { m.st with isPlaying := false, currentTime := 0,
                      hasVoted := false, isPreview := true },
    currentTrack := none,
    advanceCount := m.advanceCount + 1 }

/-- `loadTrack(track, isPreview)`: stop playback, clear the ref-held
preview timeout, install the new source and reset the session
(`hasVoted := !isPreview`, no auto-play). -/
def loadTrackM (m : PlayerModel) (t : Track) (isPreview : Bool) : PlayerModel :=
  let m1 := clearPreviewTimeout m
  { m1 with
    currentTrack := some t,
    st := { m1.st with isPreview := isPreview, hasVoted := !isPreview,
                       currentTime := 0, error := none, isPlaying := false } }

/-- `play()` with the promise outcome `ok`: on success the element starts
playing and, in un-voted preview mode, a fresh 30-second timeout is
scheduled and its handle stored in the ref (without clearing any previous
one); on failure an error message is set. -/
def playM (m : PlayerModel) (ok : Bool) : PlayerModel :=
  match m.currentTrack with
  | none => m
  | some _ =>
      if ok then
        let m1 := { m with st := { m.st with isPlaying := true } }
        if m1.st.isPreview && !m1.st.hasVoted then
          { m1 with pendingTimers := m1.pendingTimers ++ [m1.nextTimerId],
                    previewTimeoutRef := some m1.nextTimerId,
                    nextTimerId := m1.nextTimerId + 1 }
        else m1
      else
        { m with st := { m.st with error := some "Click play to start listening",
                                   isPlaying := false } }

/-- `pause()`: pauses the audio element (the `pause` event clears
`isPlaying`); no timer is cleared. -/
def pauseM (m : PlayerModel) : PlayerModel :=
  { m with st := { m.st with isPlaying := false } }

/-- Expiry of a scheduled 30-second preview timeout: the callback pauses
the element and clears `isPlaying`; nothing else changes. -/
def timerFireM (m : PlayerModel) (i : Nat) : PlayerModel :=
  if i ∈ m.pendingTimers then
    { m with pendingTimers := m.pendingTimers.erase i,
             st := { m.st with isPlaying := false } }
  else m

/-- `voteUp()`: guarded on a current track and no prior vote; clears the
ref-held timeout, reloads the same track in full mode and marks
`hasVoted`. -/
def voteUpM (m : PlayerModel) : PlayerModel :=
  match m.currentTrack with
  | none => m
  | some t =>
      if m.st.hasVoted then m
      else
        let m1 := clearPreviewTimeout m
        let m2 := loadTrackM m1 t false
        { m2 with st := { m2.st with hasVoted := true } }

/-- `voteDown()`: guarded on no prior vote; marks `hasVoted` and advances. -/
def voteDownM (m : PlayerModel) : PlayerModel :=
  if m.st.hasVoted then m
  else skipToNextM { m with st := { m.st with hasVoted := true } }

/-- The `ended` media event handler: reset position, and in preview mode
auto-skip to the next track. -/
def endedM (m : PlayerModel) : PlayerModel :=
  let m1 := { m with st := { m.st with isPlaying := false, currentTime := 0 } }
  if m.st.isPreview then skipToNextM m1 else m1

/-- Externally visible player events. -/
inductive PlayerEvent where
  | load (t : Track) (isPreview : Bool)
  | play (ok : Bool)
  | pause
  | voteUp
  | voteDown
  | skip
  | timerFire (i : Nat)
  | ended
deriving DecidableEq, Repr

def playerStep (m : PlayerModel) : PlayerEvent → PlayerModel
  | .load t isPreview => loadTrackM m t isPreview
  | .play ok => playM m ok
  | .pause => pauseM m
  | .voteUp => voteUpM m
  | .voteDown => voteDownM m
  | .skip => skipToNextM m
  | .timerFire i => timerFireM m i
  | .ended => endedM m

def runPlayer (m : PlayerModel) (evs : List PlayerEvent) : PlayerModel :=
  evs.foldl playerStep m

/-! ## Interleaving model of the auth callback (`hooks/useAuth.tsx`)

`onAuthStateChanged` callbacks are asynchronous: each invocation is a chain
of segments separated by `await` points (the `getDoc` of each attempt and
the backoff `setTimeout`).  A later principal change does not cancel the
pending chain of an earlier one — the loop consults no generation token —
so segments of distinct invocations can interleave.  Each segment is the
list of state writes it performs. -/

inductive AuthAction where
  | setUser (p : Option Principal)
  | clearError
  | setProfileDoc (u : Principal) (data : ProfileDoc)
  | setMinimal (u : Principal) (now : Nat)
  | clearProfile
  | setErrMsg (s : String)
  | setLoadingFalse
deriving DecidableEq, Repr

def applyAuthAction (st : AuthState) : AuthAction → AuthState
  | .setUser p => { st with user := p }
  | .clearError => { st with error := none }
  | .setProfileDoc u data =>
      { st with userProfile := some (profileFromDoc u data),
                profileSetupComplete := isProfileComplete data }
  | .setMinimal u now =>
      { st with userProfile := some (minimalUserProfile u now),
                profileSetupComplete := false }
  | .clearProfile => { st with userProfile := none, profileSetupComplete := false }
  | .setErrMsg s => { st with error := some s }
  | .setLoadingFalse => { st with loading := false }

/-- Segments of the retry loop, one per `await` resolution: a failed
attempt below the budget contributes an empty segment (its catch block
writes nothing and suspends on the backoff timer) followed by the segments
of the next attempt; terminal attempts write their outcome and clear
`loading`. -/
def attemptSegments (u : Principal)
    (fetch : Nat → Except FetchError (Option ProfileDoc))
    (createOk : Bool) (now : Nat) : Nat → Nat → List (List AuthAction)
  | 0, _ => []
  | _fuel + 1, retryCount =>
    match fetch retryCount with
    | .ok (some data) => [[.setProfileDoc u data, .setLoadingFalse]]
    | .ok none =>
        [[(if createOk then AuthAction.setMinimal u now
           else AuthAction.setErrMsg "Failed to create user profile. Please try again."),
          .setLoadingFalse]]
    | .error e =>
        if maxRetries ≤ retryCount + 1 then
          [[.clearProfile, .setErrMsg (classifyError e), .setLoadingFalse]]
        else
          [] :: attemptSegments u fetch createOk now _fuel (retryCount + 1)

/-- The whole callback as a list of segments: a synchronous prologue
(`setUser`, `setError(null)`) followed by the fetch-loop segments when a
principal is present, or a single synchronous segment on sign-out. -/
def callbackSegments (p : Option Principal)
    (fetch : Nat → Except FetchError (Option ProfileDoc))
    (createOk : Bool) (now : Nat) : List (List AuthAction) :=
  match p with
  | none => [[.setUser none, .clearError, .clearProfile, .setLoadingFalse]]
  | some u =>
      [AuthAction.setUser (some u), AuthAction.clearError]
        :: attemptSegments u fetch createOk now maxRetries 0

/-- Run a schedule over a pool of pending callback chains: step `i` of the
schedule executes the next segment of chain `i` (a no-op when that chain
has finished). -/
def runSched (st : AuthState) (tasks : List (List (List AuthAction))) :
    List Nat → AuthState
  | [] => st
  | i :: rest =>
      match tasks.getD i [] with
      | [] => runSched st tasks rest
      | seg :: more => runSched (seg.foldl applyAuthAction st) (tasks.set i more) rest

/-! ## Sample values used by witnesses and counterexamples -/

def sampleUser : Principal :=
  { uid := "user-1", email := some "one@example.com", displayName := some "One" }

def sampleMusicTrack : MusicTrack :=
  { id := "t1", title := "Song", artist := "A", artistId := "a1", genre := "Pop",
    coverArt := "", audioUrl := "u", previewUrl := "p", duration := 100,
    heatScore := 30, upvotes := 0, downvotes := 0, createdAt := 0, updatedAt := 0 }

/-! ## C1: the heat score function -/

/-- C1: for every pair of naturals `(upvotes, downvotes)`, the heat score
is 30 when there are no votes, `round (30 + 80·upvotes/total)` otherwise,
always lies in `[30, 110]`, and equals 90 at `upvotes = 3, downvotes = 1`. -/
theorem C1_calculateHeatScore_spec (u d : Nat) :
    (u + d = 0 → calculateHeatScore u d = 30) ∧
    (u + d ≠ 0 →
      calculateHeatScore u d =
        round ((30 : ℚ) + 80 * (u : ℚ) / ((u : ℚ) + (d : ℚ)))) ∧
    30 ≤ calculateHeatScore u d ∧ calculateHeatScore u d ≤ 110 ∧
    calculateHeatScore 3 1 = 90 := by
  have hconc : calculateHeatScore 3 1 = 90 := by
    norm_num [calculateHeatScore, round_eq]
  refine ⟨fun h => by simp [calculateHeatScore, h], fun h => ?_, ?_, ?_, hconc⟩
  · simp only [calculateHeatScore, if_neg h]
    congr 1
    push_cast
    ring
  · by_cases h : u + d = 0
    · simp [calculateHeatScore, h]
    · have hpos : (0 : ℚ) < ((u + d : Nat) : ℚ) := by
        exact_mod_cast Nat.pos_of_ne_zero h
      have hr0 : (0 : ℚ) ≤ (u : ℚ) / ((u + d : Nat) : ℚ) :=
        div_nonneg (by positivity) hpos.le
      simp only [calculateHeatScore, if_neg h, round_eq]
      refine Int.le_floor.mpr ?_
      push_cast at hr0 ⊢
      nlinarith
  · by_cases h : u + d = 0
    · simp [calculateHeatScore, h]
    · have hpos : (0 : ℚ) < ((u + d : Nat) : ℚ) := by
        exact_mod_cast Nat.pos_of_ne_zero h
      have hr1 : (u : ℚ) / ((u + d : Nat) : ℚ) ≤ 1 := by
        rw [div_le_one hpos]
        exact_mod_cast Nat.le_add_right u d
      simp only [calculateHeatScore, if_neg h, round_eq]
      have hlt : (30 : ℚ) + (u : ℚ) / ((u + d : Nat) : ℚ) * 80 + 1 / 2
          < ((111 : Int) : ℚ) := by
        push_cast at hr1 ⊢
        nlinarith
      have hf := Int.floor_lt.mpr hlt
      omega

/-- Witness for C1 at concrete inputs. -/
theorem C1_calculateHeatScore_spec_witness :
    calculateHeatScore 0 0 = 30 ∧
    calculateHeatScore 3 1 =
      round ((30 : ℚ) + 80 * (3 : ℚ) / ((3 : ℚ) + (1 : ℚ))) ∧
    30 ≤ calculateHeatScore 3 1 ∧ calculateHeatScore 3 1 ≤ 110 := by
  refine ⟨(C1_calculateHeatScore_spec 0 0).1 rfl, ?_, ?_, ?_⟩
  · have h := (C1_calculateHeatScore_spec 3 1).2.1 (by decide)
    simpa using h
  · exact (C1_calculateHeatScore_spec 3 1).2.2.1
  · exact (C1_calculateHeatScore_spec 3 1).2.2.2.1

/-! ## C10: fetch fallback to placeholder tracks -/

/-- C10: an empty fetch result or a thrown fetch installs exactly the
three placeholder tracks (ids prefixed `placeholder-`, heat 30, zero
votes); a non-empty successful fetch installs exactly the fetched list. -/
theorem C10_fetchTracks_placeholders (now : Nat) (e : String)
    (l : List MusicTrack) :
    fetchTracks (.error e) now = getPlaceholderTracks now ∧
    fetchTracks (.ok []) now = getPlaceholderTracks now ∧
    (l ≠ [] → fetchTracks (.ok l) now = l) ∧
    (getPlaceholderTracks now).length = 3 ∧
    (∀ t ∈ getPlaceholderTracks now,
      ("placeholder-".data <+: t.id.data) ∧ t.heatScore = 30 ∧
      t.upvotes = 0 ∧ t.downvotes = 0) := by
  refine ⟨rfl, rfl, fun h => ?_, rfl, ?_⟩
  · simp [fetchTracks, List.length_eq_zero, h]
  · intro t ht
    simp only [getPlaceholderTracks, List.mem_cons, List.not_mem_nil, or_false] at ht
    rcases ht with h | h | h <;> subst h
    · refine ⟨?_, rfl, rfl, rfl⟩
      show ("placeholder-".data <+: "placeholder-1".data)
      decide
    · refine ⟨?_, rfl, rfl, rfl⟩
      show ("placeholder-".data <+: "placeholder-2".data)
      decide
    · refine ⟨?_, rfl, rfl, rfl⟩
      show ("placeholder-".data <+: "placeholder-3".data)
      decide

/-- Witness for C10 with a concrete non-empty fetched list. -/
theorem C10_fetchTracks_placeholders_witness :
    fetchTracks (.error "boom") 7 = getPlaceholderTracks 7 ∧
    fetchTracks (.ok [sampleMusicTrack]) 7 = [sampleMusicTrack] :=
  ⟨(C10_fetchTracks_placeholders 7 "boom" [sampleMusicTrack]).1,
   (C10_fetchTracks_placeholders 7 "boom" [sampleMusicTrack]).2.2.1
     (by decide)⟩

/-! ## C2: a failed vote write leaves all state unchanged and re-throws -/

/-- C2: for a track present in the in-memory list and any vote direction,
if the persistence write inside `voteTrack` throws, the whole client state
is returned unchanged — in particular the track list and the lifecycle
provider's state — and the error is re-thrown to the caller. -/
theorem C2_voteTrack_write_failure (st : AppState) (trackId : String)
    (vt : VoteType) (e : String) (now : Nat) (u : Principal)
    (hu : st.auth.user = some u)
    (t : MusicTrack) (ht : t ∈ st.tracks) (hid : t.id = trackId) :
    (voteTrack st trackId vt (.error e) now).1 = st ∧
    (voteTrack st trackId vt (.error e) now).1.auth = st.auth ∧
    (voteTrack st trackId vt (.error e) now).2 = .error e := by
  have husr : st.auth.user.isNone = false := by rw [hu]; rfl
  have hfind : (st.tracks.find? (fun tr => tr.id == trackId)).isSome := by
    rw [List.find?_isSome]
    exact ⟨t, ht, by simp [hid]⟩
  obtain ⟨tr, htr⟩ := Option.isSome_iff_exists.mp hfind
  refine ⟨?_, ?_, ?_⟩ <;> simp [voteTrack, husr, htr]

/-- Witness for C2 on a concrete signed-in state with one track. -/
theorem C2_voteTrack_write_failure_witness :
    (voteTrack
        { auth := { initialAuthState with user := some sampleUser },
          tracks := [sampleMusicTrack] } "t1" VoteType.up
        (.error "unavailable") 5).1
      = { auth := { initialAuthState with user := some sampleUser },
          tracks := [sampleMusicTrack] } ∧
    (voteTrack
        { auth := { initialAuthState with user := some sampleUser },
          tracks := [sampleMusicTrack] } "t1" VoteType.up
        (.error "unavailable") 5).2 = .error "unavailable" := by
  have h := C2_voteTrack_write_failure
    { auth := { initialAuthState with user := some sampleUser },
      tracks := [sampleMusicTrack] } "t1" VoteType.up "unavailable" 5
    sampleUser rfl sampleMusicTrack (by decide) rfl
  exact ⟨h.1, h.2.2⟩

/-! ## C5: transient fetch failure, linear backoff, bounded retries -/

/-- C5: when the profile fetch fails on every attempt, the callback makes
exactly 3 attempts, sleeping `attempt × 1s` between them (`[1000, 2000]`
ms), then stops, clears the profile, and surfaces the single classified
error; the derived lifecycle state is `AuthError`. -/
theorem C5_retry_exhaustion (u : Principal)
    (fetch : Nat → Except FetchError (Option ProfileDoc))
    (createOk : Bool) (now : Nat) (e0 e1 e2 : FetchError) (so : Bool)
    (h0 : fetch 0 = .error e0) (h1 : fetch 1 = .error e1)
    (h2 : fetch 2 = .error e2) :
    (runAuthCallback initialAuthState (some u) fetch createOk now).attempts = 3 ∧
    (runAuthCallback initialAuthState (some u) fetch createOk now).delays
      = [1000, 2000] ∧
    (runAuthCallback initialAuthState (some u) fetch createOk now).state.userProfile
      = none ∧
    (runAuthCallback initialAuthState (some u) fetch createOk
        now).state.profileSetupComplete = false ∧
    (runAuthCallback initialAuthState (some u) fetch createOk now).state.error
      = some (classifyError e2) ∧
    lifecycleState (runAuthCallback initialAuthState (some u) fetch createOk
        now).state false false so = .AuthError := by
  have hrun : runAuthCallback initialAuthState (some u) fetch createOk now =
      { state := { initialAuthState with
                     user := some u,
                     userProfile := none,
                     profileSetupComplete := false,
                     loading := false,
                     error := some (classifyError e2) },
        attempts := 3, delays := [1000, 2000] } := by
    simp [runAuthCallback, fetchLoop, maxRetries, h0, h1, h2, initialAuthState]
  rw [hrun]
  refine ⟨rfl, rfl, rfl, rfl, rfl, ?_⟩
  simp [lifecycleState]

/-- Witness for C5: a fetch that always fails with a transient error. -/
theorem C5_retry_exhaustion_witness :
    (runAuthCallback initialAuthState (some sampleUser)
        (fun _ => .error ⟨"unavailable", "net down"⟩) true 0).attempts = 3 ∧
    (runAuthCallback initialAuthState (some sampleUser)
        (fun _ => .error ⟨"unavailable", "net down"⟩) true 0).delays
      = [1000, 2000] ∧
    (runAuthCallback initialAuthState (some sampleUser)
        (fun _ => .error ⟨"unavailable", "net down"⟩) true 0).state.userProfile
      = none ∧
    lifecycleState (runAuthCallback initialAuthState (some sampleUser)
        (fun _ => .error ⟨"unavailable", "net down"⟩) true 0).state
        false false true = .AuthError := by
  have h := C5_retry_exhaustion sampleUser
    (fun _ => .error ⟨"unavailable", "net down"⟩) true 0
    ⟨"unavailable", "net down"⟩ ⟨"unavailable", "net down"⟩
    ⟨"unavailable", "net down"⟩ true rfl rfl rfl
  exact ⟨h.1, h.2.1, h.2.2.1, h.2.2.2.2.2⟩

/-! ## C3: minimal-profile creation when the document is absent -/

/-- C3 counterexample: with a principal present and the store reporting
the document absent, the controller creates the minimal fan profile but
forces `profileSetupComplete := false` (not `true` as claimed), and the
routing sends the fan straight to the dashboard: the resulting lifecycle
state is `Ready`, not `OnboardingRequired`. -/
theorem C3_counterexample :
    (runAuthCallback initialAuthState (some sampleUser) (fun _ => .ok none)
        true 0).state.profileSetupComplete = false ∧
    lifecycleState (runAuthCallback initialAuthState (some sampleUser)
        (fun _ => .ok none) true 0).state false false true = .Ready ∧
    lifecycleState (runAuthCallback initialAuthState (some sampleUser)
        (fun _ => .ok none) true 0).state false false true
      ≠ .OnboardingRequired := by
  refine ⟨rfl, rfl, by decide⟩

/-- C3 amended: when the profile fetch succeeds with the document absent
and the create succeeds, the controller creates a minimal profile whose
role defaults to `fan`, marks setup incomplete
(`profileSetupComplete = false`), and — because the routing layer sends
fans straight to the dashboard — the resulting lifecycle state is `Ready`
(neither `OnboardingRequired` nor `ProfileSetupRequired`). -/
theorem C3_missing_doc_creates_fan_profile (u : Principal)
    (fetch : Nat → Except FetchError (Option ProfileDoc)) (now : Nat)
    (so : Bool) (h : fetch 0 = .ok none) :
    (runAuthCallback initialAuthState (some u) fetch true now).state.userProfile
      = some (minimalUserProfile u now) ∧
    (minimalUserProfile u now).userType = UserType.fan ∧
    (runAuthCallback initialAuthState (some u) fetch true
        now).state.profileSetupComplete = false ∧
    lifecycleState (runAuthCallback initialAuthState (some u) fetch true
        now).state false false so = .Ready := by
  have hrun : runAuthCallback initialAuthState (some u) fetch true now =
      { state := { initialAuthState with
                     user := some u,
                     userProfile := some (minimalUserProfile u now),
                     profileSetupComplete := false,
                     loading := false,
                     error := none },
        attempts := 1, delays := [] } := by
    simp [runAuthCallback, fetchLoop, maxRetries, h, initialAuthState]
  rw [hrun]
  refine ⟨rfl, rfl, rfl, ?_⟩
  simp [lifecycleState, minimalUserProfile]

/-- Witness for the amended C3 at a concrete principal. -/
theorem C3_missing_doc_creates_fan_profile_witness :
    (runAuthCallback initialAuthState (some sampleUser) (fun _ => .ok none)
        true 0).state.userProfile = some (minimalUserProfile sampleUser 0) ∧
    (minimalUserProfile sampleUser 0).userType = UserType.fan ∧
    lifecycleState (runAuthCallback initialAuthState (some sampleUser)
        (fun _ => .ok none) true 0).state false false true = .Ready := by
  have h := C3_missing_doc_creates_fan_profile sampleUser (fun _ => .ok none)
    0 true rfl
  exact ⟨h.1, h.2.1, h.2.2.2⟩

/-! ## C4: the completeness default for fetched documents -/

/-- A fetched fan document with an empty bio and no explicit flag. -/
def fanEmptyBioDoc : ProfileDoc :=
  { displayName := "F", userType := UserType.fan, bio := some "",
    profileImageUrl := none, profileSetupComplete := none,
    createdAt := 0, updatedAt := 0 }

/-- C4 counterexample: the code's completeness default disagrees with the
claimed rule (`role == fan || bio non-empty`) on a fan document with an
empty bio and no explicit flag — the code treats it as NOT set up. -/
theorem C4_counterexample :
    isProfileComplete fanEmptyBioDoc = false ∧
    claimedSetupDefault fanEmptyBioDoc = true ∧
    isProfileComplete fanEmptyBioDoc ≠ claimedSetupDefault fanEmptyBioDoc := by
  refine ⟨rfl, rfl, by decide⟩

/-- C4 amended: a fetched document is treated as set up iff its bio is
present and non-blank or its explicit `profileSetupComplete` flag is
`true`; the role is never consulted (the result is invariant under
changing `userType`). -/
theorem C4_setup_default_ignores_role (data : ProfileDoc) (r1 r2 : UserType) :
    (isProfileComplete data = true ↔
      (∃ b, data.bio = some b ∧ b ≠ "" ∧ jsTrim b ≠ "") ∨
        data.profileSetupComplete = some true) ∧
    isProfileComplete { data with userType := r1 } =
      isProfileComplete { data with userType := r2 } := by
  refine ⟨?_, rfl⟩
  rcases data with ⟨dn, ut, bio, img, psc, ca, ua⟩
  rcases bio with _ | b <;> rcases psc with _ | pb
  · simp [isProfileComplete, bioTruthy]
  · cases pb <;> simp [isProfileComplete, bioTruthy]
  · simp [isProfileComplete, bioTruthy]
  · cases pb <;> simp [isProfileComplete, bioTruthy]

/-! ## C9: completion flags are not monotone -/

/-- A signed-in profile already marked complete. -/
def sampleProfile : UserProfile :=
  { uid := "user-1", email := "one@example.com", displayName := "One",
    userType := UserType.fan, bio := "", profileImageUrl := "",
    profileSetupComplete := some true, createdAt := 0, updatedAt := 0 }

/-- A provider state in which the completion flag has been observed true. -/
def readyState : AuthState :=
  { user := some sampleUser, userProfile := some sampleProfile,
    profileSetupComplete := true, loading := false, error := none }

/-- C9 counterexample: starting from a state whose completion flag is
true, `updateUserProfile` with an explicit `profileSetupComplete: false`
clears the flag — the controller does regress the completion flag. -/
theorem C9_counterexample :
    readyState.profileSetupComplete = true ∧
    (updateUserProfile readyState { profileSetupComplete := some false }
        true 1).1.profileSetupComplete = false :=
  ⟨rfl, rfl⟩

/-- C9 amended: the completion flag simply follows `updateUserProfile`'s
input rather than being monotone: an update object carrying an explicit
`profileSetupComplete` overwrites the flag with that boolean (including
`false`), and an update carrying a non-blank bio (and no explicit flag)
sets it to `true`. -/
theorem C9_flag_follows_updates (st : AuthState) (u : Principal)
    (upd : ProfileUpdates) (now : Nat) (b : Bool) (s : String)
    (hu : st.user = some u) (hs : s ≠ "") (hst : jsTrim s ≠ "") :
    (updateUserProfile st { upd with profileSetupComplete := some b }
        true now).1.profileSetupComplete = b ∧
    (updateUserProfile st { upd with bio := some s, profileSetupComplete := none }
        true now).1.profileSetupComplete = true := by
  constructor <;> simp [updateUserProfile, hu, hs, hst]

/-- Witness for the amended C9 at concrete inputs. -/
theorem C9_flag_follows_updates_witness :
    (updateUserProfile readyState { profileSetupComplete := some false }
        true 1).1.profileSetupComplete = false ∧
    (updateUserProfile readyState
        { bio := some "Guitarist.", profileSetupComplete := none }
        true 1).1.profileSetupComplete = true := by
  have h := C9_flag_follows_updates readyState sampleUser {} 1 false
    "Guitarist." rfl (by decide) (by decide)
  exact ⟨h.1, h.2⟩

/-! ## C7 and C8: the 30-second preview cap -/

def sampleTrack : Track :=
  { id := "t1", title := "Song", artist := "A", album := "", heatScore := 40,
    previewUrl := "p", fullUrl := "f", artwork := "", duration := 200 }

/-- C7 counterexample: load a track as a preview, start playback (the cap
timer is scheduled with id 0), let the cap expire.  The session is NOT
treated as an implicit skip: the current track is still loaded (not Idle)
and the advance signal has fired zero times, not once; the expiry only
pauses playback. -/
theorem C7_counterexample :
    (runPlayer initPlayer
        [.load sampleTrack true, .play true, .timerFire 0]).currentTrack
      = some sampleTrack ∧
    (runPlayer initPlayer
        [.load sampleTrack true, .play true, .timerFire 0]).advanceCount = 0 ∧
    (runPlayer initPlayer
        [.load sampleTrack true, .play true, .timerFire 0]).st.isPlaying
      = false := by
  refine ⟨rfl, rfl, rfl⟩

/-- C7 amended: expiry of the 30-second cap pauses playback and consumes
the timer but does not invalidate the session: the current track,
preview flag, vote flag and advance count are unchanged.  The implicit
skip (advance firing exactly once) happens only when the preview audio
source itself ends (`ended` event) while in preview mode. -/
theorem C7_cap_expiry_only_pauses (m : PlayerModel) (i : Nat)
    (h : i ∈ m.pendingTimers) :
    (timerFireM m i).st.isPlaying = false ∧
    (timerFireM m i).currentTrack = m.currentTrack ∧
    (timerFireM m i).st.isPreview = m.st.isPreview ∧
    (timerFireM m i).st.hasVoted = m.st.hasVoted ∧
    (timerFireM m i).advanceCount = m.advanceCount ∧
    (timerFireM m i).pendingTimers = m.pendingTimers.erase i ∧
    (m.st.isPreview = true → (endedM m).advanceCount = m.advanceCount + 1) := by
  have ht : timerFireM m i =
      { m with pendingTimers := m.pendingTimers.erase i,
               st := { m.st with isPlaying := false } } := by
    simp [timerFireM, h]
  rw [ht]
  refine ⟨rfl, rfl, rfl, rfl, rfl, rfl, fun hp => ?_⟩
  simp [endedM, hp, skipToNextM]

/-- Witness for the amended C7 on the concrete play-then-expire run. -/
theorem C7_cap_expiry_only_pauses_witness :
    (timerFireM (runPlayer initPlayer [.load sampleTrack true, .play true])
        0).st.isPlaying = false ∧
    (timerFireM (runPlayer initPlayer [.load sampleTrack true, .play true])
        0).currentTrack
      = (runPlayer initPlayer [.load sampleTrack true, .play true]).currentTrack ∧
    (timerFireM (runPlayer initPlayer [.load sampleTrack true, .play true])
        0).advanceCount
      = (runPlayer initPlayer [.load sampleTrack true, .play true]).advanceCount := by
  have h := C7_cap_expiry_only_pauses
    (runPlayer initPlayer [.load sampleTrack true, .play true]) 0 (by decide)
  exact ⟨h.1, h.2.1, h.2.2.2.2.1⟩

/-- C8 counterexample: load a preview, play (timer 0 scheduled), pause
(the timer is NOT cleared), play again (timer 1 scheduled while timer 0 is
still live): two 30-second preview timers are simultaneously active. -/
theorem C8_counterexample :
    (runPlayer initPlayer
        [.load sampleTrack true, .play true, .pause, .play true]).pendingTimers
      = [0, 1] ∧
    (runPlayer initPlayer
        [.load sampleTrack true, .play true, .pause,
         .play true]).pendingTimers.length = 2 := by
  refine ⟨rfl, rfl⟩

theorem not_mem_erase_self {l : List Nat} (h : l.Nodup) (i : Nat) :
    i ∉ l.erase i := by
  intro hm
  exact absurd (h.mem_erase_iff.mp hm).1 (by simp)

/-- C8 amended: the ref-held pending preview timer is cleared when loading
a track and by an up-vote (which reloads in full mode), but `pause` and a
down-vote clear no timer; hence the counterexample's double-timer run. -/
theorem C8_timer_clearing (m : PlayerModel) (t : Track) (pv : Bool) (i : Nat)
    (tr : Track) (href : m.previewTimeoutRef = some i)
    (hnd : m.pendingTimers.Nodup) (hcur : m.currentTrack = some tr)
    (hv : m.st.hasVoted = false) :
    (pauseM m).pendingTimers = m.pendingTimers ∧
    (voteDownM m).pendingTimers = m.pendingTimers ∧
    i ∉ (loadTrackM m t pv).pendingTimers ∧
    i ∉ (voteUpM m).pendingTimers := by
  refine ⟨rfl, ?_, ?_, ?_⟩
  · cases hv' : m.st.hasVoted <;> simp [voteDownM, hv', skipToNextM]
  · simp only [loadTrackM, clearPreviewTimeout, href]
    exact not_mem_erase_self hnd i
  · simp only [voteUpM, hcur, hv, Bool.false_eq_true, if_false,
      loadTrackM, clearPreviewTimeout, href]
    intro hm
    exact not_mem_erase_self hnd i (List.erase_subset _ _ hm)

/-- Witness for the amended C8 after a concrete load-and-play run. -/
theorem C8_timer_clearing_witness :
    (pauseM (runPlayer initPlayer
        [.load sampleTrack true, .play true])).pendingTimers
      = (runPlayer initPlayer [.load sampleTrack true, .play true]).pendingTimers ∧
    0 ∉ (loadTrackM (runPlayer initPlayer
        [.load sampleTrack true, .play true]) sampleTrack true).pendingTimers ∧
    0 ∉ (voteUpM (runPlayer initPlayer
        [.load sampleTrack true, .play true])).pendingTimers := by
  have h := C8_timer_clearing
    (runPlayer initPlayer [.load sampleTrack true, .play true])
    sampleTrack true 0 sampleTrack rfl (by decide) rfl rfl
  exact ⟨h.1, h.2.2.1, h.2.2.2⟩

/-! ## C6: no generation token guards the retry loop -/

def transientErr : FetchError := { code := "unavailable", message := "net down" }

def sampleDoc : ProfileDoc :=
  { displayName := "One", userType := UserType.fan, bio := some "hello",
    profileImageUrl := none, profileSetupComplete := some true,
    createdAt := 0, updatedAt := 0 }

/-- A fetch whose first attempt fails transiently and whose retry
succeeds. -/
def staleFetch : Nat → Except FetchError (Option ProfileDoc) :=
  fun n => if n = 0 then .error transientErr else .ok (some sampleDoc)

/-- C6 counterexample: the callback for `sampleUser` fails its first fetch
and suspends on the backoff timer; a sign-out callback then runs to
completion (user cleared); the stale loop's retry later resolves and still
writes the old principal's profile.  No generation-token check aborted the
stale loop, and profile state was mutated after the principal changed:
the final state has no principal but carries the old principal's
profile. -/
theorem C6_counterexample :
    (runSched initialAuthState
        [callbackSegments (some sampleUser) staleFetch true 0,
         callbackSegments none staleFetch true 0] [0, 0, 1, 0]).user
      = none ∧
    (runSched initialAuthState
        [callbackSegments (some sampleUser) staleFetch true 0,
         callbackSegments none staleFetch true 0] [0, 0, 1, 0]).userProfile
      = some (profileFromDoc sampleUser sampleDoc) := by
  refine ⟨rfl, rfl⟩

/-- C6 amended: the retry/backoff loop consults no generation token, so a
later principal change does not cancel it: for every principal, document
and transient first error, scheduling the stale loop's resolution after a
completed sign-out leaves the signed-out state carrying the stale
principal's profile (and its completeness flag). -/
theorem C6_stale_retry_overwrites (u : Principal) (d : ProfileDoc)
    (e : FetchError) (now : Nat) :
    (runSched initialAuthState
        [callbackSegments (some u)
            (fun n => if n = 0 then .error e else .ok (some d)) true now,
         callbackSegments none
            (fun n => if n = 0 then .error e else .ok (some d)) true now]
        [0, 0, 1, 0]).user = none ∧
    (runSched initialAuthState
        [callbackSegments (some u)
            (fun n => if n = 0 then .error e else .ok (some d)) true now,
         callbackSegments none
            (fun n => if n = 0 then .error e else .ok (some d)) true now]
        [0, 0, 1, 0]).userProfile = some (profileFromDoc u d) ∧
    (runSched initialAuthState
        [callbackSegments (some u)
            (fun n => if n = 0 then .error e else .ok (some d)) true now,
         callbackSegments none
            (fun n => if n = 0 then .error e else .ok (some d)) true now]
        [0, 0, 1, 0]).profileSetupComplete = isProfileComplete d := by
  refine ⟨rfl, rfl, rfl⟩
